import Mathlib

/-!
# Verification of the Huginn simulation supervisor (`huginn/simulator.py`)

This file gives a shallow embedding of the `Simulator` / `SimulationBuilder`
state machines of `src/huginn/simulator.py` and proves properties of the
step / run_for / reset / resume / construction algorithms.

The flight-dynamics model (`huginn.fdm`, wrapping JSBSim's `FDMExec`) and the
`Aircraft` facade (`huginn.aircraft`) are repository collaborators whose code
is not available here; they are modelled from the specification's external
interface contract (spec section 6): the model owns simulation time, an
altitude, a hold flag and a suspended-integration flag, and exposes
`Hold/Resume/Holding`, `IntegrationSuspended/ResumeIntegration`,
`GetSimTime/GetDeltaT`, `ResetToInitialConditions/RunIC`,
`ProcessMessage/CheckIncrementalHold/Run` and `GetAltitude`; the aircraft
exposes `start_engines`, `trim` and the four control setpoints.  The
nondeterministic outcomes of the external solvers (`Run`, `RunIC`, `trim`)
are represented by scripts: functions from a call counter to the outcome of
that call, carried inside the model state.  Floating-point numbers are
modelled as rationals.
-/

/-- Modelled from the spec: outcome of one call to the model's `Run()`
(`runOneStep` in the external contract): a successful tick that advances
simulation time by one timestep and reports a new altitude, an ordinary
boolean run failure, or a raised fault ("may fault; faults must propagate"). -/
inductive RunOutcome where
  | ok (newAltitude : ℚ)
  | fail
  | fault
deriving Repr, DecidableEq

/-- The four aircraft control-surface setpoints
(`aircraft.controls.{aileron, elevator, rudder, throttle}`). -/
structure Controls where
  aileron : ℚ
  elevator : ℚ
  rudder : ℚ
  throttle : ℚ
deriving Repr, DecidableEq

/-- The all-zero control setpoints written by the trim-failure branches. -/
def Controls.zero : Controls := ⟨0, 0, 0, 0⟩

/-- Modelled from the spec: the state of the external flight-dynamics model
(`fdmexec`) together with the aircraft facade state layered over it (the
spec says the aircraft is "logically a view, not independent state", so its
control setpoints and engine state live here).  `runScript`, `icScript`,
`trimScript` and `trimControls` encode the outcomes of the external solvers:
call number `n` of `Run()` has outcome `runScript n`, call number `n` of
`RunIC()` returns `icScript n`, and call number `n` of `aircraft.trim`
returns `trimScript n` after writing `trimControls n` to the setpoints
("the trim operation might have messed them up"). -/
structure FDMExec where
  dt : ℚ
  simTime : ℚ
  altitude : ℚ
  holding : Bool
  integrationSuspended : Bool
  controls : Controls
  enginesRunning : Bool
  icSimTime : ℚ
  icAltitude : ℚ
  runCount : ℕ
  runScript : ℕ → RunOutcome
  icCount : ℕ
  icScript : ℕ → Bool
  trimCount : ℕ
  trimScript : ℕ → Bool
  trimControls : ℕ → Controls

namespace FDMExec

/-- Modelled from the spec: `fdmexec.Hold()`. -/
def hold (f : FDMExec) : FDMExec := { f with holding := true }

/-- Modelled from the spec: `fdmexec.Resume()`. -/
def resumeModel (f : FDMExec) : FDMExec := { f with holding := false }

/-- Modelled from the spec: `fdmexec.ResumeIntegration()`. -/
def resumeIntegration (f : FDMExec) : FDMExec :=
  { f with integrationSuspended := false }

/-- Modelled from the spec: `fdmexec.ResetToInitialConditions(0)` restores
the model's time and position to the configured initial conditions. -/
def resetToInitialConditions (f : FDMExec) : FDMExec :=
  { f with simTime := f.icSimTime, altitude := f.icAltitude }

/-- Modelled from the spec: `fdmexec.RunIC()` runs the initial-condition
solver and reports success or failure (scripted). -/
def runIC (f : FDMExec) : Bool × FDMExec :=
  (f.icScript f.icCount, { f with icCount := f.icCount + 1 })

/-- Modelled from the spec: one tick of the model — `ProcessMessage()`,
`CheckIncrementalHold()` and `Run()` as executed inside the `try` block of
`Simulator.step`.  A successful run advances `simTime` by `dt` and updates
the altitude; a boolean failure leaves time unchanged; a fault is reported
as `none` (an exception escaping the model). -/
def run (f : FDMExec) : Option (Bool × FDMExec) :=
  match f.runScript f.runCount with
  | .ok a =>
      some (true, { f with simTime := f.simTime + f.dt, altitude := a,
                           runCount := f.runCount + 1 })
  | .fail => some (false, { f with runCount := f.runCount + 1 })
  | .fault => none

/-- Modelled from the spec: `aircraft.start_engines()`. -/
def startEngines (f : FDMExec) : FDMExec := { f with enginesRunning := true }

/-- Modelled from the spec: `aircraft.trim(mode)` — writes the scripted
post-trim setpoints and reports the scripted success flag. -/
def trim (f : FDMExec) : Bool × FDMExec :=
  (f.trimScript f.trimCount,
   { f with controls := f.trimControls f.trimCount,
            trimCount := f.trimCount + 1 })

/-- Direct assignment of the four control setpoints. -/
def setControls (f : FDMExec) (c : Controls) : FDMExec := { f with controls := c }

end FDMExec

/-- The `Simulator` object of `huginn/simulator.py`: the wrapped model plus
the crash latch and the construction-time policy flags
(`_crashed`, `trim_mode`, `start_paused`). -/
structure Simulator where
  fdmexec : FDMExec
  crashed : Bool
  trim_mode : ℕ
  start_paused : Bool

namespace Simulator

/-- The `Simulator.dt` property: pass-through to `fdmexec.GetDeltaT()`. -/
def dt (s : Simulator) : ℚ := s.fdmexec.dt

/-- The `Simulator.simulation_time` property: pass-through to
`fdmexec.GetSimTime()`. -/
def simulation_time (s : Simulator) : ℚ := s.fdmexec.simTime

/-- Method `Simulator.pause`: `self.fdmexec.Hold()`. -/
def pause (s : Simulator) : Simulator := { s with fdmexec := s.fdmexec.hold }

/-- Method `Simulator.resume`: a guarded no-op while crashed; otherwise clears a
suspended integration if the model reports one, then resumes the hold. -/
def resume (s : Simulator) : Simulator :=
  if s.crashed then s
  else
    let f := if s.fdmexec.integrationSuspended
             then s.fdmexec.resumeIntegration else s.fdmexec
    { s with fdmexec := f.resumeModel }

/-- Method `Simulator.is_paused`: `self.fdmexec.Holding()`. -/
def is_paused (s : Simulator) : Bool := s.fdmexec.holding

/-- Method `Simulator.set_aircraft_controls`. -/
def set_aircraft_controls (s : Simulator) (c : Controls) : Simulator :=
  { s with fdmexec := s.fdmexec.setControls c }

/-- Result of a call that in Python either returns a boolean together with
the mutated object, or raises `SimulationError`; on a raise the caller
still holds the object in the state it had at the raise, so the error
constructor carries that state. -/
inductive Outcome where
  | ok (result : Bool) (s : Simulator)
  | simulationError (s : Simulator)

/-- Method `Simulator.step`: crash detection first (pause the model, latch the
crash, report success, no tick), then the crashed no-op branch, then one
tick with pre-step pause state remembered, resumed for the tick, and
restored on the ordinary success and failure paths (but not on the fault
path, where `raise SimulationError()` escapes). -/
def step (s : Simulator) : Outcome :=
  if s.crashed = false ∧ s.fdmexec.altitude < 0 then
    .ok true { (s.pause) with crashed := true }
  else if s.crashed then
    .ok true s
  else
    let was_paused := s.is_paused
    let s1 := if was_paused then s.resume else s
    match s1.fdmexec.run with
    | none => .simulationError s1
    | some (run_result, f) =>
        let s2 := { s1 with fdmexec := f }
        if run_result then
          .ok true (if was_paused then s2.pause else s2)
        else
          .ok false (if was_paused then s2.pause else s2)

/-- The body of `Simulator.run_for`'s `while` loop, indexed by fuel:
`none` means the loop has not exited within `fuel` iterations.  The loop
keeps stepping while `fdmexec.GetSimTime() <= end_time`, propagates the
first step failure, and propagates a raised `SimulationError`. -/
def runForLoop (fuel : ℕ) (endTime : ℚ) (s : Simulator) : Option Outcome :=
  match fuel with
  | 0 => none
  | fuel + 1 =>
      if s.fdmexec.simTime ≤ endTime then
        match s.step with
        | .simulationError s' => some (.simulationError s')
        | .ok result s' =>
            if result then runForLoop fuel endTime s'
            else some (.ok false s')
      else
        some (.ok true s)

/-- Method `Simulator.run_for`: rejects a negative duration before any state
mutation, otherwise loops `step()` while simulation time is at most
start time plus the duration.  `none` means the loop ran out of fuel,
i.e. the call has not returned within `fuel` iterations. -/
def run_for (fuel : ℕ) (s : Simulator) (time_to_run : ℚ) : Option Outcome :=
  if time_to_run < 0 then some (.ok false s)
  else runForLoop fuel (s.fdmexec.simTime + time_to_run) s

/-- Method `Simulator.reset`: clear the crash latch, pause, zero the controls,
reset the model to initial conditions, run the initial-condition solver
(failure is fatal for the call), restart engines, attempt trim (failure
only zeroes the controls again), run one validation `step()` (failure is
fatal for the call), and finally resume unless `start_paused`. -/
def reset (s : Simulator) : Outcome :=
  let s := { s with crashed := false }
  let s := s.pause
  let s := s.set_aircraft_controls Controls.zero
  let s := { s with fdmexec := s.fdmexec.resetToInitialConditions }
  match s.fdmexec.runIC with
  | (false, f) => .ok false { s with fdmexec := f }
  | (true, f) =>
      let s := { s with fdmexec := f.startEngines }
      let (trim_result, f2) := s.fdmexec.trim
      let s := { s with fdmexec := f2 }
      let s := if trim_result then s
               else s.set_aircraft_controls Controls.zero
      match s.step with
      | .simulationError s' => .simulationError s'
      | .ok false s' => .ok false s'
      | .ok true s' =>
          .ok true (if s'.start_paused = false then s'.resume else s')

/-- Method `Simulator.run`: one `step()` when the model is not holding, otherwise
a no-op returning success. -/
def run (s : Simulator) : Outcome :=
  if s.fdmexec.holding = false then s.step
  else .ok true s

end Simulator

/-- The `SimulationBuilder` value object: the fields that survive into the
constructed simulator (the data path and the initial-condition fields are
consumed by the external `FDMBuilder`, which is modelled by the `FDMExec`
argument of `create_simulator`). -/
structure SimulationBuilder where
  trim_mode : ℕ
  start_paused : Bool

namespace SimulationBuilder

/-- Result of `create_simulator`: `built (some s)` hands back the usable
simulator, `built none` is the `return None` of a failed validation step,
and `simulationError` is a `SimulationError` raised by that step and
propagating out of the builder. -/
inductive BuildOutcome where
  | built (s : Option Simulator)
  | simulationError (s : Simulator)

/-- Method `SimulationBuilder.create_simulator`, given the model produced by the
external `FDMBuilder.create_fdm()`: start the engines, attempt trim
(zeroing the four setpoints on trim failure), construct the `Simulator`,
carry over the trim mode and start-paused policy, execute exactly one
validation `step()` — returning no simulator (`built none`) if it fails,
propagating a raised `SimulationError` — and pause before returning when
`start_paused` is set. -/
def create_simulator (b : SimulationBuilder) (fdmexec : FDMExec) :
    BuildOutcome :=
  let f := fdmexec.startEngines
  let (trim_result, f) := f.trim
  let f := if trim_result then f else f.setControls Controls.zero
  let simulator : Simulator :=
    { fdmexec := f, crashed := false,
      trim_mode := b.trim_mode, start_paused := b.start_paused }
  match simulator.step with
  | .simulationError s' => .simulationError s'
  | .ok false _ => .built none
  | .ok true s' =>
      .built (some (if b.start_paused then s'.pause else s'))

end SimulationBuilder

/-! ## Concrete states used by the witnesses -/

/-- A concrete healthy model: level flight at altitude 100, timestep 1/10,
all solver calls succeed. -/
def sampleFDM : FDMExec :=
  { dt := 1/10, simTime := 0, altitude := 100, holding := false,
    integrationSuspended := false, controls := Controls.zero,
    enginesRunning := true, icSimTime := 0, icAltitude := 100,
    runCount := 0, runScript := fun _ => .ok 100,
    icCount := 0, icScript := fun _ => true,
    trimCount := 0, trimScript := fun _ => true,
    trimControls := fun _ => ⟨1/100, 1/50, 0, 3/10⟩ }

/-- A concrete healthy simulator over `sampleFDM`. -/
def sampleSim : Simulator :=
  { fdmexec := sampleFDM, crashed := false, trim_mode := 0,
    start_paused := false }

/-! ## Helper lemmas about `step` and `resume` -/

namespace Simulator

/-- Crash branch of `step`: not crashed and negative altitude pauses the
model, latches the crash and returns success. -/
theorem step_crash_eq (s : Simulator) (h1 : s.crashed = false)
    (h2 : s.fdmexec.altitude < 0) :
    s.step = .ok true { s with crashed := true, fdmexec := s.fdmexec.hold } := by
  simp [step, pause, h1, h2]

/-- Crashed branch of `step`: an already-crashed simulator steps as the
identity, returning success. -/
theorem step_crashed_eq (s : Simulator) (h : s.crashed = true) :
    s.step = .ok true s := by
  simp [step, h]

/-- Calling `resume` on a non-crashed simulator clears both frozen mechanisms. -/
theorem resume_eq (s : Simulator) (h : s.crashed = false) :
    s.resume = { s with fdmexec :=
      { s.fdmexec with holding := false, integrationSuspended := false } } := by
  cases hs : s.fdmexec.integrationSuspended <;>
    simp [resume, FDMExec.resumeModel, FDMExec.resumeIntegration, h, hs]

/-- Calling `resume` on a crashed simulator is the identity. -/
theorem resume_crashed_eq (s : Simulator) (h : s.crashed = true) :
    s.resume = s := by
  simp [resume, h]

/-- Tick branch of `step` entered while the model is holding: resume,
one scripted run, and the outcome-dependent re-hold. -/
theorem step_paused_eq (s : Simulator) (hc : s.crashed = false)
    (ha : 0 ≤ s.fdmexec.altitude) (hp : s.fdmexec.holding = true) :
    s.step =
      match s.fdmexec.runScript s.fdmexec.runCount with
      | .ok a => .ok true { s with fdmexec :=
          { s.fdmexec with simTime := s.fdmexec.simTime + s.fdmexec.dt,
                           altitude := a, runCount := s.fdmexec.runCount + 1,
                           holding := true, integrationSuspended := false } }
      | .fail => .ok false { s with fdmexec :=
          { s.fdmexec with runCount := s.fdmexec.runCount + 1,
                           holding := true, integrationSuspended := false } }
      | .fault => .simulationError { s with fdmexec :=
          { s.fdmexec with holding := false, integrationSuspended := false } } := by
  have hna : ¬ s.fdmexec.altitude < 0 := not_lt.mpr ha
  rw [step]
  simp only [hc, hna, and_false, false_and, if_false, Bool.false_eq_true,
    is_paused, hp, if_true, resume_eq s hc]
  rw [FDMExec.run]
  cases hr : s.fdmexec.runScript s.fdmexec.runCount <;>
    simp [pause, FDMExec.hold]

/-- Tick branch of `step` entered while the model is not holding: one
scripted run with no hold manipulation. -/
theorem step_unpaused_eq (s : Simulator) (hc : s.crashed = false)
    (ha : 0 ≤ s.fdmexec.altitude) (hp : s.fdmexec.holding = false) :
    s.step =
      match s.fdmexec.runScript s.fdmexec.runCount with
      | .ok a => .ok true { s with fdmexec :=
          { s.fdmexec with simTime := s.fdmexec.simTime + s.fdmexec.dt,
                           altitude := a, runCount := s.fdmexec.runCount + 1 } }
      | .fail => .ok false { s with fdmexec :=
          { s.fdmexec with runCount := s.fdmexec.runCount + 1 } }
      | .fault => .simulationError s := by
  have hna : ¬ s.fdmexec.altitude < 0 := not_lt.mpr ha
  rw [step]
  simp only [hc, hna, and_false, false_and, if_false, Bool.false_eq_true,
    is_paused, hp, if_false]
  rw [FDMExec.run]
  cases hr : s.fdmexec.runScript s.fdmexec.runCount <;> simp [hp]

/-- A successful run inside `step` advances time by one timestep, bumps the
run counter, records the new altitude and preserves the hold state, the
crash latch, the policy flags and the scripts. -/
theorem step_run_ok (s : Simulator) (hc : s.crashed = false)
    (ha : 0 ≤ s.fdmexec.altitude) (a : ℚ)
    (hr : s.fdmexec.runScript s.fdmexec.runCount = .ok a) :
    ∃ s', s.step = .ok true s' ∧
      s'.fdmexec.runCount = s.fdmexec.runCount + 1 ∧
      s'.fdmexec.holding = s.fdmexec.holding ∧
      s'.crashed = s.crashed ∧
      s'.start_paused = s.start_paused ∧
      s'.fdmexec.simTime = s.fdmexec.simTime + s.fdmexec.dt ∧
      s'.fdmexec.altitude = a ∧
      s'.fdmexec.dt = s.fdmexec.dt ∧
      s'.fdmexec.runScript = s.fdmexec.runScript := by
  cases hp : s.fdmexec.holding
  · rw [step_unpaused_eq s hc ha hp, hr]
    exact ⟨_, rfl, rfl, hp, rfl, rfl, rfl, rfl, rfl, rfl⟩
  · rw [step_paused_eq s hc ha hp, hr]
    exact ⟨_, rfl, rfl, rfl, rfl, rfl, rfl, rfl, rfl, rfl⟩

/-- A failing run inside `step` returns failure, bumps the run counter and
preserves the hold state, simulation time, the crash latch and the
controls. -/
theorem step_run_fail (s : Simulator) (hc : s.crashed = false)
    (ha : 0 ≤ s.fdmexec.altitude)
    (hr : s.fdmexec.runScript s.fdmexec.runCount = .fail) :
    ∃ s', s.step = .ok false s' ∧
      s'.fdmexec.runCount = s.fdmexec.runCount + 1 ∧
      s'.fdmexec.holding = s.fdmexec.holding ∧
      s'.crashed = s.crashed ∧
      s'.fdmexec.simTime = s.fdmexec.simTime ∧
      s'.fdmexec.controls = s.fdmexec.controls := by
  cases hp : s.fdmexec.holding
  · rw [step_unpaused_eq s hc ha hp, hr]
    exact ⟨_, rfl, rfl, hp, rfl, rfl, rfl⟩
  · rw [step_paused_eq s hc ha hp, hr]
    exact ⟨_, rfl, rfl, rfl, rfl, rfl, rfl⟩

end Simulator

/-! ## Claim theorems -/

/-- Claim C3: for a non-crashed simulator whose model reports a negative
altitude, `step()` pauses the model, latches the crash, and returns success
without running a model tick (run counter and simulation time unchanged);
afterwards `is_paused()` is true. -/
theorem C3_crash_detected (s : Simulator) (h1 : s.crashed = false)
    (h2 : s.fdmexec.altitude < 0) :
    s.step = .ok true { s with crashed := true, fdmexec := s.fdmexec.hold } ∧
    ({ s with crashed := true, fdmexec := s.fdmexec.hold } : Simulator).is_paused
      = true ∧
    ({ s with crashed := true, fdmexec := s.fdmexec.hold } : Simulator).crashed
      = true ∧
    ({ s with crashed := true, fdmexec := s.fdmexec.hold } : Simulator).fdmexec.runCount
      = s.fdmexec.runCount ∧
    ({ s with crashed := true, fdmexec := s.fdmexec.hold } : Simulator).fdmexec.simTime
      = s.fdmexec.simTime :=
  ⟨Simulator.step_crash_eq s h1 h2, rfl, rfl, rfl, rfl⟩

/-- A simulator whose model reports altitude `-1`, used as the crash-branch
witness input. -/
def c3In : Simulator := { sampleSim with fdmexec := { sampleFDM with altitude := -1 } }

/-- Witness for C3 at the concrete input `c3In`. -/
theorem C3_crash_detected_witness :
    c3In.crashed = false ∧ c3In.fdmexec.altitude < 0 ∧
    (c3In.step = .ok true { c3In with crashed := true, fdmexec := c3In.fdmexec.hold } ∧
     ({ c3In with crashed := true, fdmexec := c3In.fdmexec.hold } : Simulator).is_paused
       = true ∧
     ({ c3In with crashed := true, fdmexec := c3In.fdmexec.hold } : Simulator).crashed
       = true ∧
     ({ c3In with crashed := true, fdmexec := c3In.fdmexec.hold } : Simulator).fdmexec.runCount
       = c3In.fdmexec.runCount ∧
     ({ c3In with crashed := true, fdmexec := c3In.fdmexec.hold } : Simulator).fdmexec.simTime
       = c3In.fdmexec.simTime) :=
  ⟨rfl, by norm_num [c3In, sampleFDM],
   C3_crash_detected c3In rfl (by norm_num [c3In, sampleFDM])⟩

/-- Claim C4: once `crashed` is true, `step()` returns success and is the
identity on the simulator and model state: no tick, no hold or resume, no
mutation at all. -/
theorem C4_crashed_step_noop (s : Simulator) (h : s.crashed = true) :
    s.step = .ok true s :=
  Simulator.step_crashed_eq s h

/-- A crashed simulator used as the no-op witness input. -/
def c4In : Simulator := { sampleSim with crashed := true }

/-- Witness for C4 at the concrete input `c4In`. -/
theorem C4_crashed_step_noop_witness :
    c4In.crashed = true ∧ c4In.step = .ok true c4In :=
  ⟨rfl, C4_crashed_step_noop c4In rfl⟩

/-- Claim C5: a non-crashed simulator entered with the model holding has
`step()` resume, run exactly one tick, and re-hold; the pre-step pause
state is restored both when the run succeeds (success returned, time
advanced by one timestep) and when the run reports failure (failure
returned). -/
theorem C5_step_preserves_pause (s : Simulator) (hc : s.crashed = false)
    (ha : 0 ≤ s.fdmexec.altitude) (hp : s.fdmexec.holding = true) :
    (∀ a, s.fdmexec.runScript s.fdmexec.runCount = .ok a →
      ∃ s', s.step = .ok true s' ∧ s'.is_paused = true ∧
        s'.fdmexec.runCount = s.fdmexec.runCount + 1 ∧
        s'.fdmexec.simTime = s.fdmexec.simTime + s.fdmexec.dt) ∧
    (s.fdmexec.runScript s.fdmexec.runCount = .fail →
      ∃ s', s.step = .ok false s' ∧ s'.is_paused = true ∧
        s'.fdmexec.runCount = s.fdmexec.runCount + 1 ∧
        s'.fdmexec.simTime = s.fdmexec.simTime) := by
  constructor
  · intro a hr
    rw [Simulator.step_paused_eq s hc ha hp, hr]
    exact ⟨_, rfl, rfl, rfl, rfl⟩
  · intro hr
    rw [Simulator.step_paused_eq s hc ha hp, hr]
    exact ⟨_, rfl, rfl, rfl, rfl⟩

/-- A paused healthy simulator used as the pause-preservation witness
input. -/
def c5In : Simulator :=
  { sampleSim with fdmexec := { sampleFDM with holding := true } }

/-- Witness for C5 at the concrete input `c5In` (successful-run case). -/
theorem C5_step_preserves_pause_witness :
    c5In.crashed = false ∧ 0 ≤ c5In.fdmexec.altitude ∧
    c5In.fdmexec.holding = true ∧
    (∃ s', c5In.step = .ok true s' ∧ s'.is_paused = true ∧
      s'.fdmexec.runCount = c5In.fdmexec.runCount + 1 ∧
      s'.fdmexec.simTime = c5In.fdmexec.simTime + c5In.fdmexec.dt) :=
  ⟨rfl, by norm_num [c5In, sampleFDM], rfl,
   (C5_step_preserves_pause c5In rfl (by norm_num [c5In, sampleFDM]) rfl).1 100 rfl⟩

/-- Claim C6: `resume()` is the identity whenever `crashed` is true (the
model remains exactly as it was, held or not); when not crashed it clears
both frozen mechanisms: the suspended-integration flag and the hold. -/
theorem C6_resume_guard (s : Simulator) :
    (s.crashed = true → s.resume = s) ∧
    (s.crashed = false → (s.resume).fdmexec.integrationSuspended = false ∧
      (s.resume).fdmexec.holding = false) := by
  refine ⟨fun h => Simulator.resume_crashed_eq s h, fun h => ?_⟩
  rw [Simulator.resume_eq s h]
  exact ⟨rfl, rfl⟩

/-- A crashed, held simulator used for the resume-guard witness. -/
def c6In : Simulator :=
  { sampleSim with
    crashed := true,
    fdmexec := { sampleFDM with holding := true } }

/-- Witness for C6: the guard at the crashed, held input `c6In`, and the
clearing of both frozen bits at the healthy input `sampleSim`. -/
theorem C6_resume_guard_witness :
    c6In.crashed = true ∧ c6In.resume = c6In ∧
    sampleSim.crashed = false ∧
    sampleSim.resume.fdmexec.integrationSuspended = false ∧
    sampleSim.resume.fdmexec.holding = false :=
  ⟨rfl, (C6_resume_guard c6In).1 rfl, rfl,
   ((C6_resume_guard sampleSim).2 rfl).1, ((C6_resume_guard sampleSim).2 rfl).2⟩

/-- Claim C8: a non-crashed simulator whose model faults during the tick
has `step()` raise `SimulationError` to the caller, rather than swallowing
the fault or returning an ordinary boolean failure. -/
theorem C8_fault_raises (s : Simulator) (hc : s.crashed = false)
    (ha : 0 ≤ s.fdmexec.altitude)
    (hr : s.fdmexec.runScript s.fdmexec.runCount = .fault) :
    ∃ s', s.step = .simulationError s' := by
  cases hp : s.fdmexec.holding
  · rw [Simulator.step_unpaused_eq s hc ha hp, hr]
    exact ⟨_, rfl⟩
  · rw [Simulator.step_paused_eq s hc ha hp, hr]
    exact ⟨_, rfl⟩

/-- A healthy simulator whose model faults on every run, used as the
fault-path witness input. -/
def c8In : Simulator :=
  { sampleSim with fdmexec := { sampleFDM with runScript := fun _ => .fault } }

/-- Witness for C8 at the concrete input `c8In`. -/
theorem C8_fault_raises_witness :
    c8In.crashed = false ∧ 0 ≤ c8In.fdmexec.altitude ∧
    (∃ s', c8In.step = .simulationError s') :=
  ⟨rfl, by norm_num [c8In, sampleFDM],
   C8_fault_raises c8In rfl (by norm_num [c8In, sampleFDM]) rfl⟩

/-- Claim C10: when `step()` is entered paused and not crashed and the
model faults during the tick, the raised `SimulationError` escapes without
the pre-step pause state being restored: the simulator is left un-held. -/
theorem C10_fault_skips_rehold (s : Simulator) (hc : s.crashed = false)
    (ha : 0 ≤ s.fdmexec.altitude) (hp : s.fdmexec.holding = true)
    (hr : s.fdmexec.runScript s.fdmexec.runCount = .fault) :
    ∃ s', s.step = .simulationError s' ∧ s'.is_paused = false := by
  rw [Simulator.step_paused_eq s hc ha hp, hr]
  exact ⟨_, rfl, rfl⟩

/-- A paused simulator whose model faults on every run, used as the
unrestored-pause witness input. -/
def c10In : Simulator :=
  { sampleSim with fdmexec :=
    { sampleFDM with holding := true, runScript := fun _ => .fault } }

/-- Witness for C10 at the concrete input `c10In`. -/
theorem C10_fault_skips_rehold_witness :
    c10In.crashed = false ∧ 0 ≤ c10In.fdmexec.altitude ∧
    c10In.fdmexec.holding = true ∧
    (∃ s', c10In.step = .simulationError s' ∧ s'.is_paused = false) :=
  ⟨rfl, by norm_num [c10In, sampleFDM], rfl,
   C10_fault_skips_rehold c10In rfl (by norm_num [c10In, sampleFDM]) rfl rfl⟩

/-- Claim C9: `run_for` with a negative duration returns failure without
stepping and without mutating any state: the simulator handed back is the
input state itself, so `simulation_time` is unchanged. -/
theorem C9_run_for_negative (fuel : ℕ) (s : Simulator) (t : ℚ) (ht : t < 0) :
    s.run_for fuel t = some (.ok false s) := by
  simp [Simulator.run_for, ht]

/-- Witness for C9 at the concrete duration `-1` on `sampleSim`. -/
theorem C9_run_for_negative_witness :
    (-1 : ℚ) < 0 ∧ sampleSim.run_for 5 (-1) = some (.ok false sampleSim) :=
  ⟨by norm_num, C9_run_for_negative 5 sampleSim (-1) (by norm_num)⟩

/-- The simulator on which `create_simulator` runs its validation step:
engines started, trim attempted (controls zeroed on trim failure), policy
flags carried over. -/
def buildSim (b : SimulationBuilder) (f : FDMExec) : Simulator :=
  let f := f.startEngines
  let (trim_result, f) := f.trim
  let f := if trim_result then f else f.setControls Controls.zero
  { fdmexec := f, crashed := false,
    trim_mode := b.trim_mode, start_paused := b.start_paused }

/-- Unfolding: `create_simulator` is the validation step on `buildSim` followed by the
optional construction-time pause. -/
theorem create_simulator_eq (b : SimulationBuilder) (f : FDMExec) :
    b.create_simulator f =
      match (buildSim b f).step with
      | .simulationError s' => .simulationError s'
      | .ok false _ => .built none
      | .ok true s' =>
          .built (some (if b.start_paused then s'.pause else s')) := rfl

/-- The trim attempt inside the builder does not touch the run script, the
run counter, the altitude or the hold flag. -/
theorem buildSim_fields (b : SimulationBuilder) (f : FDMExec) :
    (buildSim b f).crashed = false ∧
    (buildSim b f).start_paused = b.start_paused ∧
    (buildSim b f).fdmexec.runScript = f.runScript ∧
    (buildSim b f).fdmexec.runCount = f.runCount ∧
    (buildSim b f).fdmexec.altitude = f.altitude := by
  rw [buildSim]
  cases htr : f.trimScript f.trimCount <;>
    simp [FDMExec.startEngines, FDMExec.trim, FDMExec.setControls, htr]

/-- Scripts on which every run succeeds and reports a nonnegative
altitude, so no crash is ever latched and every tick advances time. -/
def goodScript (f : FDMExec) : Prop :=
  ∀ n, ∃ a, f.runScript n = RunOutcome.ok a ∧ 0 ≤ a

/-- Once the crash is latched with simulation time still inside the loop
bound, `run_for`'s loop never exits: `step` is the identity and simulation
time never advances, so every fuel bound is exhausted. -/
theorem runForLoop_crashed_none (endTime : ℚ) (s : Simulator)
    (hc : s.crashed = true) (ht : s.fdmexec.simTime ≤ endTime) :
    ∀ fuel, Simulator.runForLoop fuel endTime s = none := by
  intro fuel
  induction fuel with
  | zero => rfl
  | succ n ih =>
      rw [Simulator.runForLoop]
      simp only [ht, if_true, Simulator.step_crashed_eq s hc]
      exact ih

/-- With a positive timestep and a script of successful nonnegative-altitude
runs, `run_for`'s loop exits within any fuel bound that covers the duration:
each iteration advances simulation time by one timestep. -/
theorem runForLoop_terminates (endTime : ℚ) :
    ∀ (fuel : ℕ) (s : Simulator), s.crashed = false → 0 ≤ s.fdmexec.altitude →
      0 < s.fdmexec.dt → goodScript s.fdmexec →
      endTime - s.fdmexec.simTime < fuel * s.fdmexec.dt →
      ∃ s', Simulator.runForLoop (fuel + 1) endTime s = some (.ok true s') ∧
        endTime < s'.fdmexec.simTime := by
  intro fuel
  induction fuel with
  | zero =>
      intro s hc ha _hdt _hg hb
      have hgt : endTime < s.fdmexec.simTime := by
        simp only [Nat.cast_zero, zero_mul] at hb
        linarith
      rw [Simulator.runForLoop, if_neg (not_le.mpr hgt)]
      exact ⟨s, rfl, hgt⟩
  | succ n ih =>
      intro s hc ha hdt hg hb
      by_cases hle : s.fdmexec.simTime ≤ endTime
      · obtain ⟨a, hra, hapos⟩ := hg s.fdmexec.runCount
        obtain ⟨s', hs', hcount, hhold, hcr, hsp, hst, haltS, hdtS, hscr⟩ :=
          Simulator.step_run_ok s hc ha a hra
        rw [Simulator.runForLoop, if_pos hle]
        simp only [hs']
        have hg' : goodScript s'.fdmexec := by
          intro m
          rw [hscr]
          exact hg m
        have hb' : endTime - s'.fdmexec.simTime < n * s'.fdmexec.dt := by
          rw [hst, hdtS]
          push_cast at hb ⊢
          linarith
        exact ih s' (hcr.trans hc) (haltS ▸ hapos) (hdtS ▸ hdt) hg' hb'
      · rw [Simulator.runForLoop, if_neg hle]
        exact ⟨s, rfl, not_le.mp hle⟩

/-- Claim C1 (amended): for `t >= 0`, with a positive timestep, and as long
as no crash is latched — every run succeeds with nonnegative altitude —
`run_for(t)` terminates with success and simulation time strictly past
`start + t`; and a step returning failure makes `run_for` return failure
immediately (one loop iteration). -/
theorem C1_run_for_terminates (s : Simulator) (t : ℚ) (ht : 0 ≤ t)
    (hc : s.crashed = false) (ha : 0 ≤ s.fdmexec.altitude)
    (hdt : 0 < s.fdmexec.dt) :
    (goodScript s.fdmexec →
      ∃ fuel s', s.run_for fuel t = some (.ok true s') ∧
        s.fdmexec.simTime + t < s'.fdmexec.simTime) ∧
    (s.fdmexec.runScript s.fdmexec.runCount = .fail →
      ∃ s', s.run_for 1 t = some (.ok false s')) := by
  constructor
  · intro hg
    obtain ⟨fuel, hfuel⟩ := exists_nat_gt (t / s.fdmexec.dt)
    have hb : (s.fdmexec.simTime + t) - s.fdmexec.simTime < fuel * s.fdmexec.dt := by
      rw [div_lt_iff₀ hdt] at hfuel
      have hsub : (s.fdmexec.simTime + t) - s.fdmexec.simTime = t := by ring
      rw [hsub]
      linarith
    obtain ⟨s', h1, h2⟩ :=
      runForLoop_terminates (s.fdmexec.simTime + t) fuel s hc ha hdt hg hb
    refine ⟨fuel + 1, s', ?_, h2⟩
    rw [Simulator.run_for, if_neg (not_lt.mpr ht)]
    exact h1
  · intro hr
    obtain ⟨s', hs', -⟩ := Simulator.step_run_fail s hc ha hr
    refine ⟨s', ?_⟩
    rw [Simulator.run_for, if_neg (not_lt.mpr ht), Simulator.runForLoop,
      if_pos (by linarith : s.fdmexec.simTime ≤ s.fdmexec.simTime + t)]
    simp [hs']

/-- Witness for C1 on the healthy simulator `sampleSim` over duration 2. -/
theorem C1_run_for_terminates_witness :
    (0 : ℚ) ≤ 2 ∧ sampleSim.crashed = false ∧
    0 ≤ sampleSim.fdmexec.altitude ∧ 0 < sampleSim.fdmexec.dt ∧
    (∃ fuel s', sampleSim.run_for fuel 2 = some (.ok true s') ∧
      sampleSim.fdmexec.simTime + 2 < s'.fdmexec.simTime) :=
  ⟨by norm_num, rfl, by norm_num [sampleSim, sampleFDM],
   by norm_num [sampleSim, sampleFDM],
   (C1_run_for_terminates sampleSim 2 (by norm_num) rfl
     (by norm_num [sampleSim, sampleFDM])
     (by norm_num [sampleSim, sampleFDM])).1
     (fun n => ⟨100, rfl, by norm_num⟩)⟩

/-- A model whose first (and only reached) run drives the altitude to `-5`:
timestep 1, starting at time 0 and altitude 100. -/
def c1FDM : FDMExec := { sampleFDM with dt := 1, runScript := fun _ => .ok (-5) }

/-- The simulator on which `run_for 10` crashes after its first tick. -/
def c1Sim : Simulator := { sampleSim with fdmexec := c1FDM }

/-- State of `c1Sim` after its first tick: time 1, altitude `-5`. -/
def c1SimB : Simulator :=
  { c1Sim with fdmexec :=
    { c1Sim.fdmexec with
        simTime := c1Sim.fdmexec.simTime + c1Sim.fdmexec.dt,
        altitude := -5, runCount := c1Sim.fdmexec.runCount + 1 } }

/-- State of `c1Sim` after the second step latches the crash. -/
def c1SimC : Simulator :=
  { c1SimB with crashed := true, fdmexec := c1SimB.fdmexec.hold }

/-- First step of the crash scenario: a successful tick to altitude `-5`. -/
theorem c1_step1 : c1Sim.step = .ok true c1SimB := by
  rw [Simulator.step_unpaused_eq c1Sim rfl
    (by norm_num [c1Sim, c1FDM, sampleFDM]) rfl]
  rfl

/-- Second step of the crash scenario: the crash is latched. -/
theorem c1_step2 : c1SimB.step = .ok true c1SimC :=
  Simulator.step_crash_eq c1SimB rfl
    (by norm_num [c1SimB, c1Sim, c1FDM, sampleFDM])

/-- The crash scenario exhausts every fuel bound: after the crash latches
at time 1 with 9 seconds of budget left, the loop spins without advancing
time. -/
theorem c1_spin (fuel : ℕ) : c1Sim.run_for fuel 10 = none := by
  rw [Simulator.run_for, if_neg (by norm_num : ¬ (10 : ℚ) < 0)]
  obtain _ | n := fuel
  · rfl
  rw [Simulator.runForLoop,
    if_pos (by norm_num [c1Sim, c1FDM, sampleFDM] :
      c1Sim.fdmexec.simTime ≤ c1Sim.fdmexec.simTime + 10)]
  simp only [c1_step1, if_true]
  obtain _ | m := n
  · rfl
  rw [Simulator.runForLoop,
    if_pos (by norm_num [c1SimB, c1Sim, c1FDM, sampleFDM] :
      c1SimB.fdmexec.simTime ≤ c1Sim.fdmexec.simTime + 10)]
  simp only [c1_step2, if_true]
  exact runForLoop_crashed_none (c1Sim.fdmexec.simTime + 10) c1SimC rfl
    (by norm_num [c1SimC, c1SimB, c1Sim, c1FDM, sampleFDM, FDMExec.hold]) m

/-- Claim C1 counterexample: on `c1Sim` with duration 10 the aircraft
crashes after one tick and `run_for` never returns — no fuel bound
suffices — refuting the claim that `run_for` always terminates by
spinning successful no-op steps through the remaining budget. -/
theorem C1_counterexample : ¬ ∃ fuel, (c1Sim.run_for fuel 10).isSome = true := by
  rintro ⟨fuel, h⟩
  rw [c1_spin fuel] at h
  simp at h

/-- Claim C7: `create_simulator` executes exactly one validation `step()`
on the freshly built simulator: when the scripted run fails the builder
returns no usable simulator; when it succeeds the returned simulator has
run exactly one tick and, if `start_paused` is set, is paused before being
handed back. -/
theorem C7_builder_validation (b : SimulationBuilder) (f : FDMExec)
    (ha : 0 ≤ f.altitude) :
    (f.runScript f.runCount = .fail → b.create_simulator f = .built none) ∧
    (∀ a, f.runScript f.runCount = .ok a →
      ∃ s, b.create_simulator f = .built (some s) ∧
        s.fdmexec.runCount = f.runCount + 1 ∧
        s.start_paused = b.start_paused ∧
        (b.start_paused = true → s.is_paused = true)) := by
  obtain ⟨hc, hsp, hscr, hcount, halt⟩ := buildSim_fields b f
  have ha' : 0 ≤ (buildSim b f).fdmexec.altitude := halt ▸ ha
  constructor
  · intro hr
    have hr' : (buildSim b f).fdmexec.runScript (buildSim b f).fdmexec.runCount
        = .fail := by rw [hscr, hcount]; exact hr
    obtain ⟨s', hs', -⟩ := Simulator.step_run_fail _ hc ha' hr'
    rw [create_simulator_eq, hs']
  · intro a hr
    have hr' : (buildSim b f).fdmexec.runScript (buildSim b f).fdmexec.runCount
        = .ok a := by rw [hscr, hcount]; exact hr
    obtain ⟨s', hs', hcount', -, -, hsp', -⟩ :=
      Simulator.step_run_ok _ hc ha' a hr'
    rw [create_simulator_eq, hs']
    have hcount'' : s'.fdmexec.runCount = f.runCount + 1 := by
      rw [hcount', hcount]
    have hsp'' : s'.start_paused = b.start_paused := by rw [hsp', hsp]
    cases hbp : b.start_paused <;>
      simp only [Bool.false_eq_true, if_false, if_true]
    · exact ⟨s', rfl, hcount'', hsp''.trans hbp, by intro h; exact absurd h (by simp)⟩
    · exact ⟨s'.pause, rfl, hcount'', hsp''.trans hbp, fun _ => rfl⟩

/-- State reached by `reset` when the initial-condition solver fails: crash
latch cleared, model paused, controls zeroed, time and altitude back at the
initial conditions, one `RunIC` call consumed. -/
def resetICFailSim (s : Simulator) : Simulator :=
  { s with
    crashed := false,
    fdmexec := { s.fdmexec with
      holding := true, controls := Controls.zero,
      simTime := s.fdmexec.icSimTime, altitude := s.fdmexec.icAltitude,
      icCount := s.fdmexec.icCount + 1 } }

/-- State on which `reset` runs its validation step after a successful
`RunIC`: paused at the initial conditions with engines restarted and the
controls holding the trim result (or zeroed again after a failed trim). -/
def resetTrimSim (s : Simulator) : Simulator :=
  { s with
    crashed := false,
    fdmexec := { s.fdmexec with
      holding := true,
      simTime := s.fdmexec.icSimTime,
      altitude := s.fdmexec.icAltitude,
      icCount := s.fdmexec.icCount + 1,
      enginesRunning := true,
      trimCount := s.fdmexec.trimCount + 1,
      controls := if s.fdmexec.trimScript s.fdmexec.trimCount
                  then s.fdmexec.trimControls s.fdmexec.trimCount
                  else Controls.zero } }

/-- Calling `reset` on a failing initial-condition solver reports failure from the
paused, zeroed, re-initialized state. -/
theorem reset_ic_fail_eq (s : Simulator)
    (h : s.fdmexec.icScript s.fdmexec.icCount = false) :
    s.reset = .ok false (resetICFailSim s) := by
  rw [Simulator.reset]
  simp only [Simulator.pause, Simulator.set_aircraft_controls,
    FDMExec.setControls, FDMExec.hold, FDMExec.resetToInitialConditions,
    FDMExec.runIC, h, resetICFailSim]

/-- Calling `reset` on a successful initial-condition solver is the validation step
on `resetTrimSim` followed by the outcome bookkeeping and the optional
resume. -/
theorem reset_ic_ok_eq (s : Simulator)
    (h : s.fdmexec.icScript s.fdmexec.icCount = true) :
    s.reset =
      match (resetTrimSim s).step with
      | .simulationError s' => .simulationError s'
      | .ok false s' => .ok false s'
      | .ok true s' =>
          .ok true (if s'.start_paused = false then s'.resume else s') := by
  rw [Simulator.reset]
  simp only [Simulator.pause, Simulator.set_aircraft_controls,
    FDMExec.setControls, FDMExec.hold, FDMExec.resetToInitialConditions,
    FDMExec.runIC, h, FDMExec.startEngines, FDMExec.trim, resetTrimSim]
  cases htr : s.fdmexec.trimScript s.fdmexec.trimCount <;>
    simp only [htr, Bool.false_eq_true, if_false, if_true]

/-- Calling `resume` on a non-crashed simulator keeps the crash latch clear and
does not touch the controls. -/
theorem resume_crashfree_controls (u : Simulator) (hc : u.crashed = false) :
    (u.resume).crashed = false ∧
    (u.resume).fdmexec.controls = u.fdmexec.controls := by
  rw [Simulator.resume_eq u hc]
  exact ⟨hc, rfl⟩

/-- The controls of the pre-validation reset state are the trimmed values
on trim success and zero on trim failure. -/
theorem resetTrimSim_controls (s : Simulator) :
    (resetTrimSim s).fdmexec.controls =
      if s.fdmexec.trimScript s.fdmexec.trimCount
      then s.fdmexec.trimControls s.fdmexec.trimCount
      else Controls.zero := rfl

/-- Every boolean return of the tail of `reset` (validation step plus
optional resume), run from a paused, non-crashed state with nonnegative
altitude, hands back a simulator with the crash latch clear and the
controls it entered with. -/
theorem reset_tail_ok (s0 : Simulator) (hc : s0.crashed = false)
    (ha : 0 ≤ s0.fdmexec.altitude) (hp : s0.fdmexec.holding = true) :
    ∀ b s', (match s0.step with
      | .simulationError s'' => Simulator.Outcome.simulationError s''
      | .ok false s'' => .ok false s''
      | .ok true s'' =>
          .ok true (if s''.start_paused = false then s''.resume else s'')) =
        .ok b s' →
      s'.crashed = false ∧ s'.fdmexec.controls = s0.fdmexec.controls := by
  intro b s' h
  have hstep := Simulator.step_paused_eq s0 hc ha hp
  cases hrs : s0.fdmexec.runScript s0.fdmexec.runCount with
  | ok a =>
      rw [hrs] at hstep
      rw [hstep] at h
      injection h with h1 h2
      subst h2
      constructor
      · split
        · refine (resume_crashfree_controls _ ?_).1
          exact hc
        · exact hc
      · split
        · refine (resume_crashfree_controls _ ?_).2
          exact hc
        · rfl
  | fail =>
      rw [hrs] at hstep
      rw [hstep] at h
      injection h with h1 h2
      subst h2
      exact ⟨hc, rfl⟩
  | fault =>
      rw [hrs] at hstep
      rw [hstep] at h
      simp at h

/-- With the run succeeding, the tail of `reset` returns success and both
preserves the controls it entered with and keeps the crash latch clear. -/
theorem reset_tail_success (s0 : Simulator) (hc : s0.crashed = false)
    (ha : 0 ≤ s0.fdmexec.altitude) (hp : s0.fdmexec.holding = true)
    (a : ℚ) (hr : s0.fdmexec.runScript s0.fdmexec.runCount = .ok a) :
    ∃ s', (match s0.step with
      | .simulationError s'' => Simulator.Outcome.simulationError s''
      | .ok false s'' => .ok false s''
      | .ok true s'' =>
          .ok true (if s''.start_paused = false then s''.resume else s'')) =
        .ok true s' ∧ s'.crashed = false ∧
      s'.fdmexec.controls = s0.fdmexec.controls := by
  have hstep := Simulator.step_paused_eq s0 hc ha hp
  rw [hr] at hstep
  rw [hstep]
  refine ⟨_, rfl, ?_, ?_⟩
  · split
    · refine (resume_crashfree_controls _ ?_).1
      exact hc
    · exact hc
  · split
    · refine (resume_crashfree_controls _ ?_).2
      exact hc
    · rfl

/-- Claim C2 (amended): provided the configured initial-condition altitude
is nonnegative — so the validation step after re-initialization cannot
detect a crash — every boolean return of `reset()` leaves `crashed ==
false`; on success the four setpoints hold the trimmed values when trim
succeeded and 0.0 when it failed; and a trim failure alone does not fail
`reset()`: with `RunIC` and the validation run succeeding, `reset()`
returns success with neutral controls. -/
theorem C2_reset_clears_crash (s : Simulator)
    (hic : 0 ≤ s.fdmexec.icAltitude) :
    (∀ b s', s.reset = .ok b s' → s'.crashed = false) ∧
    (∀ s', s.reset = .ok true s' →
      s'.fdmexec.controls =
        (if s.fdmexec.trimScript s.fdmexec.trimCount
         then s.fdmexec.trimControls s.fdmexec.trimCount
         else Controls.zero)) ∧
    (s.fdmexec.icScript s.fdmexec.icCount = true →
     s.fdmexec.trimScript s.fdmexec.trimCount = false →
     ∀ a, s.fdmexec.runScript s.fdmexec.runCount = .ok a →
       ∃ s', s.reset = .ok true s' ∧ s'.crashed = false ∧
         s'.fdmexec.controls = Controls.zero) := by
  have hpa : 0 ≤ (resetTrimSim s).fdmexec.altitude := hic
  refine ⟨?_, ?_, ?_⟩
  · intro b s' h
    cases hics : s.fdmexec.icScript s.fdmexec.icCount
    · rw [reset_ic_fail_eq s hics] at h
      injection h with h1 h2
      subst h2
      rfl
    · rw [reset_ic_ok_eq s hics] at h
      exact (reset_tail_ok (resetTrimSim s) rfl hpa rfl b s' h).1
  · intro s' h
    cases hics : s.fdmexec.icScript s.fdmexec.icCount
    · rw [reset_ic_fail_eq s hics] at h
      injection h with h1 h2
      exact absurd h1 (by simp)
    · rw [reset_ic_ok_eq s hics] at h
      exact (reset_tail_ok (resetTrimSim s) rfl hpa rfl true s' h).2
  · intro hics htr a hr
    obtain ⟨s', h1, h2, h3⟩ := reset_tail_success (resetTrimSim s) rfl hpa rfl a hr
    refine ⟨s', ?_, h2, ?_⟩
    · rw [reset_ic_ok_eq s hics]
      exact h1
    · rw [h3, resetTrimSim_controls, htr]
      simp

/-- A simulator whose configured initial-condition altitude is negative:
the validation step inside `reset` re-latches the crash. -/
def c2Sim : Simulator :=
  { sampleSim with fdmexec := { sampleFDM with icAltitude := -1 } }

/-- State returned by `reset` on `c2Sim`: the validation step found the
re-initialized altitude negative, paused and latched the crash. -/
def c2After : Simulator :=
  { resetTrimSim c2Sim with
    crashed := true,
    fdmexec := (resetTrimSim c2Sim).fdmexec.hold }

/-- Claim C2 counterexample: on `c2Sim` (initial-condition altitude `-1`,
trim and `RunIC` succeeding) `reset()` returns success yet leaves
`crashed == true`, refuting "every call to reset() results in
crashed == false". -/
theorem C2_counterexample :
    c2Sim.reset = .ok true c2After ∧ c2After.crashed = true := by
  constructor
  · rw [reset_ic_ok_eq c2Sim rfl,
      Simulator.step_crash_eq (resetTrimSim c2Sim) rfl
        (by norm_num [resetTrimSim, c2Sim, sampleSim, sampleFDM])]
    rfl
  · rfl

/-- A healthy simulator whose trim always fails, used as the C2 witness
input. -/
def c2W : Simulator :=
  { sampleSim with fdmexec := { sampleFDM with trimScript := fun _ => false } }

/-- Witness for C2 (amended) at the concrete input `c2W`: trim fails during
reset, yet reset returns success with crash latch clear and neutral
controls. -/
theorem C2_reset_clears_crash_witness :
    0 ≤ c2W.fdmexec.icAltitude ∧
    c2W.fdmexec.icScript c2W.fdmexec.icCount = true ∧
    c2W.fdmexec.trimScript c2W.fdmexec.trimCount = false ∧
    c2W.fdmexec.runScript c2W.fdmexec.runCount = .ok 100 ∧
    (∃ s', c2W.reset = .ok true s' ∧ s'.crashed = false ∧
      s'.fdmexec.controls = Controls.zero) :=
  ⟨by norm_num [c2W, sampleFDM], rfl, rfl, rfl,
   (C2_reset_clears_crash c2W (by norm_num [c2W, sampleFDM])).2.2 rfl rfl 100 rfl⟩

/-- A builder requesting a paused start, used as the C7 witness input. -/
def c7Builder : SimulationBuilder := { trim_mode := 0, start_paused := true }

/-- Witness for C7 on the healthy model `sampleFDM` with a start-paused
builder: the validation run succeeds, so a simulator is returned with one
tick executed and paused. -/
theorem C7_builder_validation_witness :
    0 ≤ sampleFDM.altitude ∧
    sampleFDM.runScript sampleFDM.runCount = .ok 100 ∧
    (∃ s, c7Builder.create_simulator sampleFDM = .built (some s) ∧
      s.fdmexec.runCount = sampleFDM.runCount + 1 ∧
      s.start_paused = c7Builder.start_paused ∧
      (c7Builder.start_paused = true → s.is_paused = true)) :=
  ⟨by norm_num [sampleFDM], rfl,
   (C7_builder_validation c7Builder sampleFDM (by norm_num [sampleFDM])).2 100 rfl⟩
